import Mathlib

/-!
Verification of the EnviroSense authentication subsystem
(`src/backend/app/api/v1/endpoints/auth.py` together with the data model in
`src/backend/app/models/user.py`), embedded shallowly in Lean 4.

Timestamps are modelled as natural numbers, the credential store as a list
of user records, and each endpoint as a pure function from the store (plus
its request arguments and the outcomes of fallible writes) to a response
paired with the updated store.  The database helpers of `app.core.db_utils`
and the function `app.core.auth.authenticate_user` are not part of the
excerpt; they are modelled from the specification and marked as such.
-/

namespace EnviroSense

/-- A row of the `users` table, after `src/backend/app/models/user.py`:
id, username, email, hashed_password, is_active, the lockout columns
`failed_login_attempts`, `last_failed_login`, `account_locked_until`, and the
reset columns `reset_token`, `reset_token_expires`.  Timestamps are `Nat`. -/
structure UserR where
  id : Nat
  username : String
  email : String
  hashed_password : String
  is_active : Bool
  failed_login_attempts : Nat
  last_failed_login : Option Nat
  account_locked_until : Option Nat
  reset_token : Option String
  reset_token_expires : Option Nat
deriving Repr, DecidableEq

/-- The credential store: the rows of the `users` table. -/
abbrev DB := List UserR

/-- Modelled from the spec: the Password Hasher collaborator of section 6,
`hash(plaintext) -> opaque`.  An injective opaque encoding stands in for the
real salted hash. -/
def get_password_hash (plaintext : String) : String :=
  "h#" ++ plaintext

/-- Modelled from the spec: the Password Hasher collaborator of section 6,
`verify(plaintext, opaque) -> boolean`. -/
def verify_password (plaintext stored : String) : Bool :=
  get_password_hash plaintext == stored

/-- Apply an update to the row with the given id, leaving every other row
unchanged (the effect of `UPDATE users SET ... WHERE id = :user_id`). -/
def updateUser (db : DB) (uid : Nat) (f : UserR → UserR) : DB :=
  db.map fun u => if u.id = uid then f u else u

/-- Modelled from the spec: `db_utils.get_user_by_email` (the store contract
`findByEmail(email) -> User?` of section 6), not part of the excerpt. -/
def get_user_by_email (db : DB) (email : String) : Option UserR :=
  db.find? fun u => u.email == email

/-- Modelled from the spec: `db_utils.get_user_by_reset_token` (the store
contract `findByResetToken(token) -> User?` of section 6), not part of the
excerpt: resolves the user whose stored reset token equals the argument. -/
def get_user_by_reset_token (db : DB) (token : String) : Option UserR :=
  db.find? fun u => u.reset_token == some token

/-- Modelled from the spec: the state change performed by
`db_utils.store_reset_token` when its write succeeds (section 6,
`updateCredentials` on the two reset columns, applied atomically). -/
def store_reset_token (db : DB) (uid : Nat) (tok : Option String)
    (expires : Option Nat) : DB :=
  updateUser db uid fun u =>
    { u with reset_token := tok, reset_token_expires := expires }

/-- Modelled from the spec: the state change performed by
`db_utils.update_user_password` when its write succeeds (section 6,
`updateCredentials` on the password hash column). -/
def update_user_password (db : DB) (uid : Nat) (hash : String) : DB :=
  updateUser db uid fun u => { u with hashed_password := hash }

/-- Responses of the message-shaped endpoints: an HTTP 200 body with a
message, or an `HTTPException` with a status code and a detail string. -/
inductive ApiResult where
  | ok (message : String)
  | httpError (status : Nat) (detail : String)
deriving Repr, DecidableEq

/-- `str(e)` of a raised `HTTPException`, as interpolated into the detail of
the 500 raised by a blanket `except Exception` handler. -/
def httpErrStr (e : Nat × String) : String :=
  toString e.1 ++ ": " ++ e.2

/-- Validation performed by the pydantic `EmailStr` type on the `email`
field of `ResetPasswordRequest` (auth.py line 34), abstracted: every
accepted value contains an `@` that is neither its first nor its last
character (nonempty local part and domain). -/
def emailStrValid (s : String) : Bool :=
  s.data.contains '@' && s.data.head? != some '@' && s.data.getLast? != some '@'

/-- The `POST /reset-password` endpoint, auth.py lines 215-302.  The token
length is checked first; a falsy (empty) email is rejected; the user is
resolved by reset token, falling back to email; then the password is
written.  `updateOk` is the success flag returned by
`db_utils.update_user_password`, `clearOk` the flag returned by the
token-clearing `db_utils.store_reset_token` call (its value is ignored by
the code).  No comparison with the stored token and no expiry check occur
anywhere on the path. -/
def reset_password (db : DB) (token new_password email : String)
    (updateOk clearOk : Bool) : ApiResult × DB :=
  if token.length < 32 then
    (ApiResult.httpError 400 "Invalid token format", db)
  else if email = "" then
    (ApiResult.httpError 400 "Please provide your email along with the token", db)
  else
    match (match get_user_by_reset_token db token with
           | some u => some u
           | none => get_user_by_email db email) with
    | none => (ApiResult.httpError 400 "Invalid token or email", db)
    | some u =>
      if updateOk then
        let db1 := update_user_password db u.id (get_password_hash new_password)
        let db2 := if clearOk then store_reset_token db1 u.id none none else db1
        (ApiResult.ok "Password has been reset successfully", db2)
      else
        (ApiResult.httpError 500 "An error occurred while resetting your password", db)

/-- The `POST /forgot-password` endpoint, auth.py lines 167-213.  `tok` is
the value produced by `secrets.token_urlsafe(32)`, `now` the current time,
`storeOk` the success flag returned by `db_utils.store_reset_token`.
Returns the response, the updated store, and the list of log lines emitted
(the operator-visible channel). -/
def forgot_password (db : DB) (email : String) (tok : String) (now : Nat)
    (storeOk : Bool) : ApiResult × DB × List String :=
  match get_user_by_email db email with
  | none =>
    (ApiResult.ok "If your email is registered, you will receive password reset instructions.",
     db,
     ["Forgot password request for non-existent email: " ++ email])
  | some u =>
    let baseLogs := ["Password reset requested for user: " ++ u.username,
                     "Reset token generated: " ++ tok]
    let expires_at := now + 3600
    if storeOk then
      (ApiResult.ok "If your email is registered, you will receive password reset instructions.",
       store_reset_token db u.id (some tok) (some expires_at),
       baseLogs ++ ["Token stored in database"])
    else
      (ApiResult.ok "If your email is registered, you will receive password reset instructions.",
       db,
       baseLogs ++ ["Token could not be stored in database - it will only be logged"])

/-- The body of the `try` block of `POST /change-password`, auth.py lines
143-157: an `HTTPException` raised inside it is an `Except.error`. -/
def change_password_try (db : DB) (current_user : UserR)
    (current_password new_password : String) : Except (Nat × String) (String × DB) :=
  if verify_password current_password current_user.hashed_password then
    Except.ok ("Password changed successfully",
      update_user_password db current_user.id (get_password_hash new_password))
  else
    Except.error (400, "Incorrect current password")

/-- The `POST /change-password` endpoint, auth.py lines 137-165.  The
`except Exception` handler has no preceding `except HTTPException: raise`,
so the 400 raised on a password mismatch is caught and re-raised as a 500
whose detail interpolates `str(e)`. -/
def change_password (db : DB) (current_user : UserR)
    (current_password new_password : String) : ApiResult × DB :=
  match change_password_try db current_user current_password new_password with
  | Except.ok (msg, db1) => (ApiResult.ok msg, db1)
  | Except.error e =>
    (ApiResult.httpError 500
      ("An error occurred while changing the password: " ++ httpErrStr e), db)

/-- Response of `PUT /me`: the JSON object of auth.py lines 124-129, or an
`HTTPException`. -/
inductive ProfileResult where
  | ok (id : Nat) (username email : String) (is_active : Bool)
  | httpError (status : Nat) (detail : String)
deriving Repr, DecidableEq

/-- The body of the `try` block of `PUT /me`, auth.py lines 97-129: the
uniqueness checks via raw SQL, then
`UPDATE users SET username = :username, email = :email WHERE id = :user_id`. -/
def update_user_profile_try (db : DB) (current_user : UserR)
    (newUsername newEmail : String) :
    Except (Nat × String) (ProfileResult × DB) :=
  if newUsername ≠ current_user.username ∧ db.any (fun u => u.username == newUsername) then
    Except.error (400, "Username already exists")
  else if newEmail ≠ current_user.email ∧ db.any (fun u => u.email == newEmail) then
    Except.error (400, "Email already exists")
  else
    Except.ok
      (ProfileResult.ok current_user.id newUsername newEmail current_user.is_active,
       updateUser db current_user.id fun u =>
         { u with username := newUsername, email := newEmail })

/-- The `PUT /me` endpoint, auth.py lines 91-135, with its blanket
`except Exception` handler turning any raised `HTTPException` into a 500. -/
def update_user_profile (db : DB) (current_user : UserR)
    (newUsername newEmail : String) : ProfileResult × DB :=
  match update_user_profile_try db current_user newUsername newEmail with
  | Except.ok (r, db1) => (r, db1)
  | Except.error e =>
    (ProfileResult.httpError 500
      ("An error occurred while updating the profile: " ++ httpErrStr e), db)

/-- Outcome of the authentication operation of the Lifecycle Manager. -/
inductive AuthResult where
  | success (u : UserR)
  | invalidCredentials
  | accountLocked (remaining : Nat)
deriving Repr, DecidableEq

/-- Whether `account_locked_until` is set and in the future. -/
def lockActive (lockedUntil : Option Nat) (now : Nat) : Bool :=
  match lockedUntil with
  | none => false
  | some t => now < t

/-- Remaining lock duration reported with `AccountLocked`. -/
def lockRemaining (lockedUntil : Option Nat) (now : Nat) : Nat :=
  match lockedUntil with
  | none => 0
  | some t => t - now

/-- Modelled from the spec: `app.core.auth.authenticate_user` (called by
`POST /token`, auth.py line 61) is not part of the excerpt; this follows
the authentication algorithm of section 4.2 step by step: lookup by
username; fail while a lock is active; on a password mismatch increment
`failed_login_attempts`, record `last_failed_login`, and set
`account_locked_until = now + lockoutWindow` when the new count reaches the
configured threshold; on a match reset the counter and clear the lock. -/
def authenticate_user (db : DB) (username password : String)
    (threshold lockoutWindow now : Nat) : AuthResult × DB :=
  match db.find? (fun u => u.username == username) with
  | none => (AuthResult.invalidCredentials, db)
  | some u =>
    if lockActive u.account_locked_until now then
      (AuthResult.accountLocked (lockRemaining u.account_locked_until now), db)
    else if verify_password password u.hashed_password then
      (AuthResult.success u,
       updateUser db u.id fun v =>
         { v with failed_login_attempts := 0, account_locked_until := none })
    else
      let newCount := u.failed_login_attempts + 1
      let lockedUntil :=
        if threshold ≤ newCount then some (now + lockoutWindow)
        else u.account_locked_until
      (AuthResult.invalidCredentials,
       updateUser db u.id fun v =>
         { v with failed_login_attempts := newCount,
                  last_failed_login := some now,
                  account_locked_until := lockedUntil })

/-- Run one failed (or lock-swallowed) authentication attempt per listed
time, threading the store. -/
def runAttempts (threshold lockoutWindow : Nat) (username password : String)
    (db : DB) : List Nat → DB
  | [] => db
  | t :: ts =>
    runAttempts threshold lockoutWindow username password
      (authenticate_user db username password threshold lockoutWindow t).2 ts

/-- The columns of a user row that a profile update must not touch. -/
def frameFields (u : UserR) :
    String × Bool × Nat × Option Nat × Option Nat × Option String × Option Nat :=
  (u.hashed_password, u.is_active, u.failed_login_attempts, u.last_failed_login,
   u.account_locked_until, u.reset_token, u.reset_token_expires)

/-! ### Concrete fixtures used by witnesses and counterexamples -/

/-- A stored reset token (33 characters, as produced by
`secrets.token_urlsafe(32)`). -/
def tokStored : String := "storedtokenstoredtokenstoredtoken"

/-- A well-formed (length 32) token different from `tokStored`. -/
def tokOther : String := "AAAAAAAAAAAAAAAAAAAAAAAAAAAAAAAA"

/-- A registered user holding a live-looking reset token that expired at
time 10. -/
def alice : UserR :=
  { id := 1, username := "alice", email := "a@x.com",
    hashed_password := get_password_hash "P@ss1", is_active := true,
    failed_login_attempts := 0, last_failed_login := none,
    account_locked_until := none,
    reset_token := some tokStored, reset_token_expires := some 10 }

/-! ### Theorems for the claims -/

/-- C8: a reset-consumption call whose token is shorter than 32 characters
is rejected as malformed with the 400 "Invalid token format" error, and the
store is returned unchanged — before any user lookup (the result does not
depend on the content of the store) and before any state change. -/
theorem reset_short_token_rejected_before_lookup
    (db : DB) (token new_password email : String) (updateOk clearOk : Bool)
    (h : token.length < 32) :
    reset_password db token new_password email updateOk clearOk =
      (ApiResult.httpError 400 "Invalid token format", db) := by
  simp [reset_password, h]

/-- Witness for C8 at a concrete short token. -/
theorem reset_short_token_rejected_before_lookup_witness :
    "short".length < 32 ∧
      reset_password [alice] "short" "NewP@ss2" "a@x.com" true true =
        (ApiResult.httpError 400 "Invalid token format", [alice]) :=
  ⟨by decide,
   reset_short_token_rejected_before_lookup [alice] "short" "NewP@ss2" "a@x.com"
     true true (by decide)⟩

/-- A string accepted by the `EmailStr` validation is nonempty. -/
theorem emailStrValid_ne_empty (s : String)
    (h : emailStrValid s = true) : s ≠ "" := by
  intro hs
  subst hs
  simp [emailStrValid] at h

/-- C10: when the email field of the request passes the schema validation
(`EmailStr`), the "Please provide your email along with the token" branch
of `reset_password` is never taken: no outcome of the endpoint carries that
detail. -/
theorem reset_email_branch_unreachable
    (db : DB) (token new_password email : String) (updateOk clearOk : Bool)
    (h : emailStrValid email = true) :
    (reset_password db token new_password email updateOk clearOk).1 ≠
      ApiResult.httpError 400 "Please provide your email along with the token" := by
  have hne : email ≠ "" := emailStrValid_ne_empty email h
  by_cases ht : token.length < 32
  · simp [reset_password, ht]
  · cases htk : get_user_by_reset_token db token with
    | some u => cases updateOk <;> cases clearOk <;>
        simp [reset_password, ht, hne, htk]
    | none => cases hem : get_user_by_email db email with
      | some u => cases updateOk <;> cases clearOk <;>
          simp [reset_password, ht, hne, htk, hem]
      | none => simp [reset_password, ht, hne, htk, hem]

/-- Witness for C10 at a concrete validated email. -/
theorem reset_email_branch_unreachable_witness :
    emailStrValid "a@x.com" = true ∧
      (reset_password [alice] tokOther "NewP@ss2" "a@x.com" true true).1 ≠
        ApiResult.httpError 400 "Please provide your email along with the token" :=
  ⟨by decide,
   reset_email_branch_unreachable [alice] tokOther "NewP@ss2" "a@x.com" true true
     (by decide)⟩

/-- C5: a reset-issuance call whose email resolves to a registered user and
one whose email resolves to nobody produce the same caller-visible
response, namely the generic success message. -/
theorem forgot_password_uniform_response
    (db1 db2 : DB) (e1 e2 tok1 tok2 : String) (now1 now2 : Nat)
    (s1 s2 : Bool) (u : UserR)
    (h1 : get_user_by_email db1 e1 = some u)
    (h2 : get_user_by_email db2 e2 = none) :
    (forgot_password db1 e1 tok1 now1 s1).1 =
        (forgot_password db2 e2 tok2 now2 s2).1 ∧
      (forgot_password db1 e1 tok1 now1 s1).1 =
        ApiResult.ok "If your email is registered, you will receive password reset instructions." := by
  cases s1 <;> simp [forgot_password, h1, h2]

/-- Witness for C5: registered `a@x.com` against unregistered `b@y.com`. -/
theorem forgot_password_uniform_response_witness :
    (forgot_password [alice] "a@x.com" tokStored 5 true).1 =
        (forgot_password [alice] "b@y.com" tokStored 5 true).1 ∧
      (forgot_password [alice] "a@x.com" tokStored 5 true).1 =
        ApiResult.ok "If your email is registered, you will receive password reset instructions." :=
  forgot_password_uniform_response [alice] [alice] "a@x.com" "b@y.com"
    tokStored tokStored 5 5 true true alice (by decide) (by decide)

/-- C7: when the persistence write of the token fails (`store_reset_token`
reports failure), reset issuance still returns the generic success response
to the caller, leaves the store unchanged, and emits the operator-facing
warning in the log. -/
theorem forgot_password_store_failure_degrades
    (db : DB) (email tok : String) (now : Nat) (u : UserR)
    (h : get_user_by_email db email = some u) :
    forgot_password db email tok now false =
      (ApiResult.ok "If your email is registered, you will receive password reset instructions.",
       db,
       ["Password reset requested for user: " ++ u.username,
        "Reset token generated: " ++ tok,
        "Token could not be stored in database - it will only be logged"]) := by
  simp [forgot_password, h]

/-- Witness for C7 at a concrete registered user. -/
theorem forgot_password_store_failure_degrades_witness :
    forgot_password [alice] "a@x.com" tokStored 5 false =
      (ApiResult.ok "If your email is registered, you will receive password reset instructions.",
       [alice],
       ["Password reset requested for user: alice",
        "Reset token generated: " ++ tokStored,
        "Token could not be stored in database - it will only be logged"]) :=
  forgot_password_store_failure_degrades [alice] "a@x.com" tokStored 5 alice
    (by decide)

/-- C6 (failing input): on a password-change call with the wrong current
password, the endpoint responds with HTTP 500 — the 400
"Incorrect current password" exception is swallowed by the blanket
`except Exception` handler and re-raised as an internal-failure response —
while the stored hash is unchanged. -/
theorem change_password_mismatch_gives_500 :
    change_password [alice] alice "wrong" "NewP@ss2" =
      (ApiResult.httpError 500
        "An error occurred while changing the password: 400: Incorrect current password",
       [alice]) := by
  rfl

/-- C1 (counterexample): with a stored token that both differs from the
supplied token and carries an expiry in the past, consumption still
succeeds and overwrites the password — the endpoint never compares the
supplied token with the stored one and never checks expiry. -/
theorem reset_accepts_mismatched_expired_token :
    alice.reset_token = some tokStored ∧ tokOther ≠ tokStored ∧
      alice.reset_token_expires = some 10 ∧
      reset_password [alice] tokOther "NewP@ss2" "a@x.com" true true =
        (ApiResult.ok "Password has been reset successfully",
         [{ alice with hashed_password := get_password_hash "NewP@ss2",
                       reset_token := none, reset_token_expires := none }]) :=
  ⟨rfl, by decide, rfl, rfl⟩

/-- C1 (amended): the consumption path rejects with the 400
"Invalid token or email" response exactly when neither the token lookup nor
the email lookup resolves a user; presence, match, and expiry of the
resolved user's stored token are never examined. -/
theorem reset_invalid_iff_both_lookups_fail
    (db : DB) (token new_password email : String) (updateOk clearOk : Bool)
    (ht : ¬ token.length < 32) (hne : email ≠ "") :
    (reset_password db token new_password email updateOk clearOk).1 =
        ApiResult.httpError 400 "Invalid token or email"
      ↔ get_user_by_reset_token db token = none ∧
          get_user_by_email db email = none := by
  cases htk : get_user_by_reset_token db token with
  | some u => cases updateOk <;> cases clearOk <;>
      simp [reset_password, ht, hne, htk]
  | none => cases hem : get_user_by_email db email with
    | some u => cases updateOk <;> cases clearOk <;>
        simp [reset_password, ht, hne, htk, hem]
    | none => simp [reset_password, ht, hne, htk, hem]

/-- Witness for the amended C1 at a concrete unresolvable request. -/
theorem reset_invalid_iff_both_lookups_fail_witness :
    (reset_password [alice] tokOther "NewP@ss2" "nobody@x.com" true true).1 =
        ApiResult.httpError 400 "Invalid token or email"
      ↔ get_user_by_reset_token [alice] tokOther = none ∧
          get_user_by_email [alice] "nobody@x.com" = none :=
  reset_invalid_iff_both_lookups_fail [alice] tokOther "NewP@ss2" "nobody@x.com"
    true true (by decide) (by decide)

/-- C2 (counterexample): consuming the stored token succeeds, and a second
consumption with the very same token and email succeeds again (resolved
through the email fallback) instead of failing. -/
theorem reset_second_consumption_also_succeeds :
    (reset_password [alice] tokStored "NewP@ss2" "a@x.com" true true).1 =
        ApiResult.ok "Password has been reset successfully" ∧
      (reset_password (reset_password [alice] tokStored "NewP@ss2" "a@x.com" true true).2
          tokStored "NewP@ss3" "a@x.com" true true).1 =
        ApiResult.ok "Password has been reset successfully" :=
  ⟨rfl, rfl⟩

/-- C2 (amended): a successful consumption clears the stored token, so the
token no longer resolves a user; but a second attempt with the same token
and the same email succeeds again through the email fallback rather than
failing. -/
theorem reset_consumption_clears_token_but_email_path_reopens
    (u : UserR) (token p1 p2 : String)
    (htok : u.reset_token = some token)
    (ht : ¬ token.length < 32) (hne : u.email ≠ "") :
    (reset_password [u] token p1 u.email true true).1 =
        ApiResult.ok "Password has been reset successfully" ∧
      get_user_by_reset_token (reset_password [u] token p1 u.email true true).2 token = none ∧
      (reset_password (reset_password [u] token p1 u.email true true).2
          token p2 u.email true true).1 =
        ApiResult.ok "Password has been reset successfully" := by
  refine ⟨?_, ?_, ?_⟩ <;>
    simp [reset_password, get_user_by_reset_token, get_user_by_email,
      update_user_password, store_reset_token, updateUser, List.find?,
      ht, hne, htok]

/-- Witness for the amended C2 at the concrete fixture. -/
theorem reset_consumption_clears_token_but_email_path_reopens_witness :
    (reset_password [alice] tokStored "NewP@ss2" "a@x.com" true true).1 =
        ApiResult.ok "Password has been reset successfully" ∧
      get_user_by_reset_token
          (reset_password [alice] tokStored "NewP@ss2" "a@x.com" true true).2
          tokStored = none ∧
      (reset_password (reset_password [alice] tokStored "NewP@ss2" "a@x.com" true true).2
          tokStored "NewP@ss3" "a@x.com" true true).1 =
        ApiResult.ok "Password has been reset successfully" :=
  reset_consumption_clears_token_but_email_path_reopens alice tokStored
    "NewP@ss2" "NewP@ss3" rfl (by decide) (by decide)

/-- C4 (counterexample): when the password write succeeds but the separate
token-clearing write fails (its return value is ignored by the code), the
endpoint still reports success while the stored reset token is left in
place — the two writes are not one atomic update. -/
theorem reset_success_leaves_token_when_clear_fails :
    (reset_password [alice] tokStored "NewP@ss2" "a@x.com" true false).1 =
        ApiResult.ok "Password has been reset successfully" ∧
      (reset_password [alice] tokStored "NewP@ss2" "a@x.com" true false).2 =
        [{ alice with hashed_password := get_password_hash "NewP@ss2" }] ∧
      ((reset_password [alice] tokStored "NewP@ss2" "a@x.com" true false).2.map
          UserR.reset_token) = [some tokStored] :=
  ⟨rfl, rfl, rfl⟩

/-- C4 (amended): if the password write fails the whole operation fails
with the 500 response and no field of the store changes (in particular the
token is not partially cleared); if the password write and the separate
token-clearing write both succeed, the new hash is persisted and both
reset-token fields are cleared.  The clearing is a second, independent
write, not part of one atomic update. -/
theorem reset_persistence_split_writes
    (u : UserR) (token new_password email : String) (clearOk : Bool)
    (htok : u.reset_token = some token)
    (ht : ¬ token.length < 32) (hne : email ≠ "") :
    reset_password [u] token new_password email false clearOk =
        (ApiResult.httpError 500 "An error occurred while resetting your password", [u]) ∧
      reset_password [u] token new_password email true true =
        (ApiResult.ok "Password has been reset successfully",
         [{ u with hashed_password := get_password_hash new_password,
                   reset_token := none, reset_token_expires := none }]) := by
  constructor <;>
    simp [reset_password, get_user_by_reset_token, get_user_by_email,
      update_user_password, store_reset_token, updateUser, List.find?,
      ht, hne, htok]

/-- Witness for the amended C4 at the concrete fixture. -/
theorem reset_persistence_split_writes_witness :
    reset_password [alice] tokStored "NewP@ss2" "a@x.com" false true =
        (ApiResult.httpError 500 "An error occurred while resetting your password", [alice]) ∧
      reset_password [alice] tokStored "NewP@ss2" "a@x.com" true true =
        (ApiResult.ok "Password has been reset successfully",
         [{ alice with hashed_password := get_password_hash "NewP@ss2",
                       reset_token := none, reset_token_expires := none }]) :=
  reset_persistence_split_writes alice tokStored "NewP@ss2" "a@x.com" true
    rfl (by decide) (by decide)

/-- `updateUser` preserves any per-row observation the update function
preserves. -/
theorem map_frameFields_updateUser (db : DB) (uid : Nat) (f : UserR → UserR)
    (hf : ∀ u, frameFields (f u) = frameFields u) :
    (updateUser db uid f).map frameFields = db.map frameFields := by
  induction db with
  | nil => rfl
  | cons u tl ih =>
    simp only [updateUser, List.map] at ih ⊢
    by_cases hu : u.id = uid
    · simp [hu, hf, ih]
    · simp [hu, ih]

/-- C9: a successful profile update changes at most the `username` and
`email` columns: the hashed password, activity flag, lockout counters and
reset-token fields of every row of the store are exactly as before. -/
theorem update_user_profile_frame
    (db : DB) (current_user : UserR) (newUsername newEmail : String)
    (i : Nat) (un em : String) (act : Bool)
    (h : (update_user_profile db current_user newUsername newEmail).1 =
      ProfileResult.ok i un em act) :
    ((update_user_profile db current_user newUsername newEmail).2).map frameFields =
      db.map frameFields := by
  unfold update_user_profile update_user_profile_try at h ⊢
  by_cases h1 : newUsername ≠ current_user.username ∧
      (db.any fun u => u.username == newUsername) = true
  · rw [if_pos h1] at h
    simp at h
  · by_cases h2 : newEmail ≠ current_user.email ∧
        (db.any fun u => u.email == newEmail) = true
    · rw [if_neg h1, if_pos h2] at h
      simp at h
    · rw [if_neg h1, if_neg h2]
      exact map_frameFields_updateUser db current_user.id _ (fun u => rfl)

/-- Witness for C9 at a concrete successful update. -/
theorem update_user_profile_frame_witness :
    ((update_user_profile [alice] alice "alice2" "a2@x.com").2).map frameFields =
      [alice].map frameFields :=
  update_user_profile_frame [alice] alice "alice2" "a2@x.com"
    1 "alice2" "a2@x.com" true (by decide)

/-- One failed attempt below the threshold: the counter advances, the
failure time is recorded, and no lock is set. -/
theorem authenticate_fail_below (u : UserR) (pw : String) (th w t c : Nat)
    (un : String) (hun : u.username = un)
    (hc : u.failed_login_attempts = c)
    (hbad : verify_password pw u.hashed_password = false)
    (hnolock : u.account_locked_until = none)
    (hlt : c + 1 < th) :
    authenticate_user [u] un pw th w t =
      (AuthResult.invalidCredentials,
       [{ u with failed_login_attempts := c + 1,
                 last_failed_login := some t,
                 account_locked_until := none }]) := by
  subst hun hc
  have hle : ¬ th ≤ u.failed_login_attempts + 1 := by omega
  simp [authenticate_user, List.find?, lockActive, hnolock, hbad, hle, updateUser]

/-- The failed attempt whose new count reaches the threshold sets the lock
to the attempt time plus the lockout window. -/
theorem authenticate_fail_crossing (u : UserR) (pw : String) (th w t c : Nat)
    (un : String) (hun : u.username = un)
    (hc : u.failed_login_attempts = c)
    (hbad : verify_password pw u.hashed_password = false)
    (hnolock : u.account_locked_until = none)
    (hge : th ≤ c + 1) :
    authenticate_user [u] un pw th w t =
      (AuthResult.invalidCredentials,
       [{ u with failed_login_attempts := c + 1,
                 last_failed_login := some t,
                 account_locked_until := some (t + w) }]) := by
  subst hun hc
  simp [authenticate_user, List.find?, lockActive, hnolock, hbad, hge, updateUser]

/-- While the lock is in the future, authentication fails with
`AccountLocked` carrying the remaining duration, whatever the password. -/
theorem authenticate_locked (u : UserR) (pw : String) (th w now T : Nat)
    (un : String) (hun : u.username = un)
    (hlock : u.account_locked_until = some T)
    (hnow : now < T) :
    authenticate_user [u] un pw th w now =
      (AuthResult.accountLocked (T - now), [u]) := by
  subst hun
  simp [authenticate_user, List.find?, lockActive, lockRemaining, hlock, hnow]

/-- Once the lock has elapsed, a correct password authenticates. -/
theorem authenticate_unlock_success (u : UserR) (pw : String) (th w now T : Nat)
    (un : String) (hun : u.username = un)
    (hlock : u.account_locked_until = some T)
    (hnow : T ≤ now)
    (hgood : verify_password pw u.hashed_password = true) :
    (authenticate_user [u] un pw th w now).1 = AuthResult.success u := by
  subst hun
  have hnl : ¬ now < T := by omega
  simp [authenticate_user, List.find?, lockActive, hlock, hnl, hgood]

/-- Running attempts over a concatenation threads the store. -/
theorem runAttempts_append (th w : Nat) (un pw : String) (db : DB)
    (l1 l2 : List Nat) :
    runAttempts th w un pw db (l1 ++ l2) =
      runAttempts th w un pw (runAttempts th w un pw db l1) l2 := by
  induction l1 generalizing db with
  | nil => rfl
  | cons t ts ih =>
    simp only [List.cons_append, runAttempts]
    exact ih _

/-- Failed attempts that stay below the threshold only advance the counter
and the failure time; no lock appears. -/
theorem runAttempts_fail_below (th w : Nat) (pw un : String) :
    ∀ (ts : List Nat) (u : UserR) (c : Nat),
      u.username = un →
      u.failed_login_attempts = c →
      verify_password pw u.hashed_password = false →
      u.account_locked_until = none →
      c + ts.length < th →
      ∃ l, runAttempts th w un pw [u] ts =
        [{ u with failed_login_attempts := c + ts.length,
                  last_failed_login := l,
                  account_locked_until := none }] := by
  intro ts
  induction ts with
  | nil =>
    intro u c hun hc hbad hnolock hlt
    refine ⟨u.last_failed_login, ?_⟩
    simp only [runAttempts, List.length_nil, Nat.add_zero]
    rw [← hc, ← hnolock]
  | cons t ts ih =>
    intro u c hun hc hbad hnolock hlt
    have hlt' : c + (ts.length + 1) < th := by simpa using hlt
    have hstep := authenticate_fail_below u pw th w t c un hun hc hbad hnolock
      (by omega)
    obtain ⟨l, hrec⟩ := ih
      { u with failed_login_attempts := c + 1, last_failed_login := some t,
               account_locked_until := none }
      (c + 1) hun rfl hbad rfl (by omega)
    refine ⟨l, ?_⟩
    have harith : c + (t :: ts).length = (c + 1) + ts.length := by
      simp only [List.length_cons]; omega
    rw [harith]
    simp only [runAttempts]
    rw [hstep]
    exact hrec

/-- C3: starting from a clean user (zero failures, no lock), after the
configured threshold of consecutive failed authentications — the last at
time `tN` — the next attempt with the CORRECT password at any time inside
the lock window fails with `AccountLocked` carrying the remaining
duration, and an attempt with the correct password once the window has
elapsed succeeds. -/
theorem account_locked_after_threshold_failures
    (u : UserR) (pw goodPw : String) (th w : Nat) (ts : List Nat)
    (tN now1 now2 : Nat)
    (hth : ts.length + 1 = th)
    (hcount : u.failed_login_attempts = 0)
    (hnolock : u.account_locked_until = none)
    (hbad : verify_password pw u.hashed_password = false)
    (hgood : verify_password goodPw u.hashed_password = true)
    (hnow1 : now1 < tN + w)
    (hnow2 : tN + w ≤ now2) :
    (authenticate_user (runAttempts th w u.username pw [u] (ts ++ [tN]))
        u.username goodPw th w now1).1 = AuthResult.accountLocked (tN + w - now1) ∧
      ∃ v, (authenticate_user (runAttempts th w u.username pw [u] (ts ++ [tN]))
        u.username goodPw th w now2).1 = AuthResult.success v := by
  obtain ⟨l, hmid⟩ := runAttempts_fail_below th w pw u.username ts u 0
    rfl hcount hbad hnolock (by omega)
  have hcross := authenticate_fail_crossing
    { u with failed_login_attempts := 0 + ts.length, last_failed_login := l,
             account_locked_until := none }
    pw th w tN (0 + ts.length) u.username rfl rfl hbad rfl (by omega)
  have hfin : runAttempts th w u.username pw [u] (ts ++ [tN]) =
      [{ u with failed_login_attempts := (0 + ts.length) + 1,
                last_failed_login := some tN,
                account_locked_until := some (tN + w) }] := by
    rw [runAttempts_append, hmid]
    simp only [runAttempts]
    rw [hcross]
  have hlock1 := authenticate_locked
    ({ u with failed_login_attempts := (0 + ts.length) + 1,
              last_failed_login := some tN,
              account_locked_until := some (tN + w) } : UserR)
    goodPw th w now1 (tN + w) u.username rfl rfl hnow1
  have hopen2 := authenticate_unlock_success
    ({ u with failed_login_attempts := (0 + ts.length) + 1,
              last_failed_login := some tN,
              account_locked_until := some (tN + w) } : UserR)
    goodPw th w now2 (tN + w) u.username rfl rfl hnow2 hgood
  constructor
  · rw [hfin, hlock1]
  · rw [hfin]
    exact ⟨_, hopen2⟩

/-- Witness for C3: threshold 2, lockout window 10; failures at times 5
and 6, a correct-password attempt at time 7 is locked with 9 remaining and
an attempt at time 16 succeeds. -/
theorem account_locked_after_threshold_failures_witness :
    (authenticate_user (runAttempts 2 10 alice.username "wrong" [alice] ([5] ++ [6]))
        alice.username "P@ss1" 2 10 7).1 = AuthResult.accountLocked (6 + 10 - 7) ∧
      ∃ v, (authenticate_user (runAttempts 2 10 alice.username "wrong" [alice] ([5] ++ [6]))
        alice.username "P@ss1" 2 10 16).1 = AuthResult.success v :=
  account_locked_after_threshold_failures alice "wrong" "P@ss1" 2 10 [5] 6 7 16
    (by decide) rfl rfl (by decide) (by decide) (by decide) (by decide)

end EnviroSense
